import Mathlib

/-
Verification of the movement bridge adapter against its specification.

The development shallowly embeds the Rust sources:
  src/protocol-units/bridge/service/src/chains/movement/client.rs
      (namespace BridgeServiceMovement)
  src/protocol-units/bridge/chains/movement/src/lib.rs
      (namespace BridgeChainsMovement)
  src/protocol-units/bridge/indexer-db/src/models.rs
      (indexer row structures)
  src/util/signing/providers/aws-kms/src/cryptography/secp256k1/mod.rs
      (namespace Secp256k1)

Machine integers are Nat with explicit `% 2 ^ w` or bound checks where the
source relies on the width; byte strings are `List Nat`; fallible code
returns `Except`; code that can panic returns `RustOutcome`, whose `panic`
constructor marks a Rust panic (out-of-bounds slice, `todo!()`).  All chain
and RPC interaction is I/O and is therefore passed in as an explicit oracle
argument (the submission function, the view-reply function); an operation
additionally returns the list of transaction payloads it submitted so that
"nothing was submitted" is expressible.
-/

set_option autoImplicit false

namespace MovementBridge

/-- Little-endian byte encoding with a fixed byte count, used for the BCS
encoding of unsigned fixed-width integers. -/
def leBytes : Nat → Nat → List Nat
  | 0, _ => []
  | k + 1, n => n % 256 :: leBytes k (n / 256)

/-- ULEB128 continuation step with explicit fuel so the definition reduces
in the kernel; the fuel `n + 1` always suffices since `n / 128 < n` for
`n ≥ 128`. -/
def ulebAux : Nat → Nat → List Nat
  | 0, n => [n % 128]
  | fuel + 1, n => if n < 128 then [n] else (n % 128 + 128) :: ulebAux fuel (n / 128)

/-- ULEB128 encoding of a length, as used by BCS for vector lengths. -/
def uleb128 (n : Nat) : List Nat := ulebAux (n + 1) n

/-- Value of a hexadecimal digit character, if it is one. -/
def hexDigitVal (c : Char) : Option Nat :=
  if '0' ≤ c ∧ c ≤ '9' then some (c.toNat - 48)
  else if 'a' ≤ c ∧ c ≤ 'f' then some (c.toNat - 87)
  else if 'A' ≤ c ∧ c ≤ 'F' then some (c.toNat - 55)
  else none

/-- Decoding of a hexadecimal character sequence into bytes; fails on an odd
number of digits or a non-hexadecimal character, mirroring Rust
`hex::decode`. -/
def hexPairs : List Char → Option (List Nat)
  | [] => some []
  | [_] => none
  | c1 :: c2 :: rest =>
    match hexDigitVal c1, hexDigitVal c2, hexPairs rest with
    | some h, some l, some tail => some ((h * 16 + l) :: tail)
    | _, _, _ => none

/-- Hexadecimal character for a value below 16, lowercase as produced by
Rust `hex::encode`. -/
def hexDigitChar (n : Nat) : Char :=
  if n < 10 then Char.ofNat (48 + n) else Char.ofNat (87 + n)

/-- Lowercase hexadecimal encoding of a byte string, mirroring Rust
`hex::encode`. -/
def hexEncode (bytes : List Nat) : String :=
  String.mk ((bytes.map fun b => [hexDigitChar (b / 16 % 16), hexDigitChar (b % 16)]).flatten)

/-- Value of a decimal digit character, if it is one. -/
def decDigitVal (c : Char) : Option Nat :=
  if '0' ≤ c ∧ c ≤ '9' then some (c.toNat - 48) else none

/-- Accumulating decimal reading of a character sequence; fails on any
non-digit. -/
def decValue : List Char → Nat → Option Nat
  | [], acc => some acc
  | c :: cs, acc =>
    match decDigitVal c with
    | some d => decValue cs (acc * 10 + d)
    | none => none

/-- Mirrors Rust `str::parse::<u64>`: an optional leading plus sign, then a
nonempty digit sequence whose value fits in 64 bits. -/
def parse_u64 (s : String) : Option Nat :=
  let cs := match s.data with
    | '+' :: rest => rest
    | l => l
  if cs.isEmpty then none
  else
    match decValue cs 0 with
    | some n => if n < 2 ^ 64 then some n else none
    | none => none

/-- Mirrors the Rust byte slice `&s[2..]`: `none` models the panic raised
when the string is shorter than two bytes or byte index 2 falls inside a
multi-byte character. -/
def rustStrSliceFrom2 (s : String) : Option (List Char) :=
  match s.data with
  | [] => none
  | c0 :: rest =>
    if c0.utf8Size = 2 then some rest
    else if c0.utf8Size = 1 then
      match rest with
      | [] => none
      | c1 :: rest2 => if c1.utf8Size = 1 then some rest2 else none
    else none

/-- Modelled from the spec: the closed set of supported asset kinds
(`AssetType` in the types module of the service crate, which is not under src/);
the Movement adapter supports `Moveth`, the other leg carries
`EthAndWeth`. -/
inductive AssetType where
  | Moveth (value : Nat)
  | EthAndWeth (value : Nat × Nat)
deriving DecidableEq

/-- Modelled from the spec: a magnitude tagged with an AssetType (§3). -/
structure Amount where
  asset : AssetType
deriving DecidableEq

/-- Modelled from the spec: an opaque chain-scoped address wrapper
(`BridgeAddress` in the types module, not under src/). -/
structure BridgeAddress (A : Type) where
  val : A
deriving DecidableEq

/-- Thirty-two-byte Aptos account address, as a byte string. -/
structure AccountAddress where
  bytes : List Nat
deriving DecidableEq

/-- Movement chain address newtype over an account address. -/
structure MovementAddress where
  addr : AccountAddress
deriving DecidableEq

/-- Modelled from the spec: a 32-byte hash commitment (§3), as a byte
string. -/
structure HashLock where
  bytes : List Nat
deriving DecidableEq

/-- Modelled from the spec: an expiry in the native time unit of the chain (§3),
a u64 in the source. -/
structure TimeLock where
  val : Nat
deriving DecidableEq

/-- Modelled from the spec: the 32-byte transfer identifier (§3). -/
structure BridgeTransferId where
  bytes : List Nat
deriving DecidableEq

/-- Modelled from the spec: the secret preimage revealed on completion. -/
structure HashLockPreImage where
  bytes : List Nat
deriving DecidableEq

/-- Error taxonomy of the bridge contract interface (§7), as matched and
constructed by client.rs. -/
inductive BridgeContractError where
  | SerializationError
  | ConversionFailed (field : String)
  | CallError
  | InvalidResponseLength
  | FunctionViewError
  | InitiateTransferError
  | LockTransferError
  | CompleteTransferError
  | AbortTransferError
  | OnChainError (reason : String)
deriving DecidableEq

/-- Modelled from the spec: the entry-function transaction payload built by
`utils::make_aptos_payload` (utils module not under src/): target contract
identity, module and function name, type arguments and the ordered encoded
argument list (§4.3). -/
structure TransactionPayload where
  address : List Nat
  moduleName : String
  functionName : String
  typeArgs : List String
  args : List (List Nat)
deriving DecidableEq

/-- Modelled from the spec: payload construction is pure record
formation. -/
def make_aptos_payload (address : List Nat) (moduleName functionName : String)
    (typeArgs : List String) (args : List (List Nat)) : TransactionPayload :=
  ⟨address, moduleName, functionName, typeArgs, args⟩

/-- Modelled from the spec: `utils::serialize_u64`, the canonical BCS
encoding of an unsigned 64-bit integer (§4.3, §6): eight little-endian
bytes. -/
def serialize_u64 (n : Nat) : List Nat := leBytes 8 (n % 2 ^ 64)

/-- Modelled from the spec: `utils::serialize_vec`, the canonical BCS
encoding of a byte vector (§4.3, §6): ULEB128 length then the bytes. -/
def serialize_vec (bytes : List Nat) : List Nat := uleb128 bytes.length ++ bytes

/-- Modelled from the spec: `utils::serialize_u64_initiator`, the same
encoding routed through the initiator-side error type. -/
def serialize_u64_initiator (n : Nat) : List Nat := serialize_u64 n

/-- Modelled from the spec: `utils::serialize_vec_initiator`, the same
encoding routed through the initiator-side error type. -/
def serialize_vec_initiator (bytes : List Nat) : List Nat := serialize_vec bytes

/-- Modelled from the spec: the JSON values appearing in a view reply;
only string and unsigned-number shapes are inspected by the client, all
other shapes fail extraction. -/
inductive JsonValue where
  | str (s : String)
  | num (n : Nat)
  | other
deriving DecidableEq

/-- Modelled from the spec: `utils::val_as_str_initiator` (utils module not
under src/) extracts a JSON string field, failing with `SerializationError`
when the field is missing or fails to parse into its semantic type
(§4.2). -/
def val_as_str_initiator : Option JsonValue → Except BridgeContractError String
  | some (.str s) => .ok s
  | _ => .error .SerializationError

/-- Modelled from the spec: `utils::val_as_u64_initiator` extracts a JSON
unsigned-integer field, failing with `SerializationError` otherwise
(§4.2). -/
def val_as_u64_initiator : Option JsonValue → Except BridgeContractError Nat
  | some (.num n) => .ok n
  | _ => .error .SerializationError

/-- Modelled from the spec: Aptos SDK `AccountAddress::from_hex_literal`
(external collaborator): requires a `0x` marker, one to sixty-four
hexadecimal digits, an implicit leading zero for an odd digit count, and
left-pads the result to thirty-two bytes. -/
def from_hex_literal (s : String) : Option (List Nat) :=
  match s.data with
  | '0' :: 'x' :: rest =>
    if rest.length = 0 ∨ 64 < rest.length then none
    else
      match hexPairs (if rest.length % 2 = 1 then '0' :: rest else rest) with
      | some bytes => some (List.replicate (32 - bytes.length) 0 ++ bytes)
      | none => none
  | _ => none

/-- Service-side Movement client state relevant to payload construction:
its contract address and the external-chain address bytes.  The REST
client, faucet handle and signer are I/O resources represented by the
submission and view oracles. -/
structure MovementClient where
  native_address : List Nat
  non_native_address : List Nat
deriving DecidableEq

/-- View request record mirroring `aptos_api_types::ViewRequest` as built
at client.rs lines 509-525: target module identity, view function name,
type arguments and JSON-encoded arguments. -/
structure ViewRequest where
  moduleAddress : List Nat
  moduleName : String
  functionName : String
  typeArguments : List String
  arguments : List String
deriving DecidableEq

/-- Outcome of running a view request against the chain: an RPC failure or
a list of JSON values. -/
def ViewReply := Except Unit (List JsonValue)

/-- Result of a fallible Rust computation that can additionally panic. -/
inductive RustOutcome (ε α : Type) where
  | ok (a : α)
  | error (e : ε)
  | panic
deriving DecidableEq

/-- Transfer details record returned by a detail query (types module, not
under src/), fields as constructed at client.rs lines 559-567. -/
structure BridgeTransferDetails (A : Type) where
  bridge_transfer_id : BridgeTransferId
  initiator_address : BridgeAddress A
  recipient_address : BridgeAddress (List Nat)
  amount : Amount
  hash_lock : HashLock
  time_lock : TimeLock
  state : Nat
deriving DecidableEq

/-- Shape of the chain submission oracle: Rust
`utils::send_and_confirm_aptos_transaction`, whose failure carries the
chain-reported reason text. -/
def SubmitOracle := TransactionPayload → Except String Unit

namespace BridgeServiceMovement

/-- Module name constant at client.rs line 31. -/
def COUNTERPARTY_MODULE_NAME : String := "atomic_bridge_counterparty"

/-- Embedding of `initiate_bridge_transfer` (client.rs lines 346-384): the
result paired with the list of submitted payloads.  The `_initiator`
argument is received and ignored exactly as in the source. -/
def initiate_bridge_transfer (client : MovementClient) (submit : SubmitOracle)
    (_initiator : BridgeAddress MovementAddress) (recipient : BridgeAddress (List Nat))
    (hash_lock : HashLock) (time_lock : TimeLock) (amount : Amount) :
    Except BridgeContractError Unit × List TransactionPayload :=
  match amount.asset with
  | .Moveth amount_value =>
    let args := [
      serialize_vec_initiator recipient.val,
      serialize_vec_initiator hash_lock.bytes,
      serialize_u64_initiator time_lock.val,
      serialize_u64_initiator amount_value]
    let payload := make_aptos_payload client.native_address
      "atomic_bridge_initiator" "initiate_bridge_transfer" [] args
    ((match submit payload with
      | .ok _ => .ok ()
      | .error _ => .error .InitiateTransferError), [payload])
  | _ => (.error (.ConversionFailed "Amount"), [])

/-- Embedding of `complete_bridge_transfer` (client.rs lines 386-413).  The
source binds the mapped submission result to `_` without `?` and then
returns `Ok(())`; the embedding keeps that discarded binding. -/
def complete_bridge_transfer (client : MovementClient) (submit : SubmitOracle)
    (bridge_transfer_id : BridgeTransferId) (preimage : HashLockPreImage) :
    Except BridgeContractError Unit × List TransactionPayload :=
  let args2 := [
    serialize_vec bridge_transfer_id.bytes,
    serialize_vec preimage.bytes]
  let payload := make_aptos_payload client.native_address
    COUNTERPARTY_MODULE_NAME "complete_bridge_transfer" [] args2
  let _mapped : Except BridgeContractError Unit :=
    match submit payload with
    | .ok u => .ok u
    | .error _ => .error .CompleteTransferError
  (.ok (), [payload])

/-- Embedding of `lock_bridge_transfer` (client.rs lines 415-455): a
non-Moveth amount fails with `SerializationError` before any payload is
built; the mapped submission result is discarded as in the source. -/
def lock_bridge_transfer (client : MovementClient) (submit : SubmitOracle)
    (bridge_transfer_id : BridgeTransferId) (hash_lock : HashLock) (time_lock : TimeLock)
    (initiator : BridgeAddress (List Nat)) (recipient : BridgeAddress MovementAddress)
    (amount : Amount) :
    Except BridgeContractError Unit × List TransactionPayload :=
  match amount.asset with
  | .Moveth amount_value =>
    let args := [
      serialize_vec initiator.val,
      serialize_vec bridge_transfer_id.bytes,
      serialize_vec hash_lock.bytes,
      serialize_u64 time_lock.val,
      serialize_vec recipient.val.addr.bytes,
      serialize_u64 amount_value]
    let payload := make_aptos_payload client.native_address
      COUNTERPARTY_MODULE_NAME "lock_bridge_transfer" [] args
    let _mapped : Except BridgeContractError Unit :=
      match submit payload with
      | .ok u => .ok u
      | .error _ => .error .LockTransferError
    (.ok (), [payload])
  | _ => (.error .SerializationError, [])

/-- Embedding of `refund_bridge_transfer` (client.rs lines 457-476): the
submission result is propagated with `?`, a failure becoming
`OnChainError` carrying the reported reason. -/
def refund_bridge_transfer (client : MovementClient) (submit : SubmitOracle)
    (bridge_transfer_id : BridgeTransferId) :
    Except BridgeContractError Unit × List TransactionPayload :=
  let args := [serialize_vec_initiator bridge_transfer_id.bytes]
  let payload := make_aptos_payload client.native_address
    "atomic_bridge_initiator" "refund_bridge_transfer" [] args
  ((match submit payload with
    | .ok _ => .ok ()
    | .error err => .error (.OnChainError err)), [payload])

/-- Embedding of `abort_bridge_transfer` (client.rs lines 478-501): the
mapped submission result is bound, logged and discarded, and `Ok(())` is
returned unconditionally as in the source. -/
def abort_bridge_transfer (client : MovementClient) (submit : SubmitOracle)
    (bridge_transfer_id : BridgeTransferId) :
    Except BridgeContractError Unit × List TransactionPayload :=
  let args3 := [serialize_vec bridge_transfer_id.bytes]
  let payload := make_aptos_payload client.native_address
    COUNTERPARTY_MODULE_NAME "abort_bridge_transfer" [] args3
  let _result : Except BridgeContractError Unit :=
    match submit payload with
    | .ok u => .ok u
    | .error _ => .error .AbortTransferError
  (.ok (), [payload])

/-- Embedding of `get_bridge_transfer_details` (client.rs lines 503-570).
The view oracle stands for the REST view call; a failing call maps to
`CallError`.  `Identifier::new` on the two constant names
"atomic_bridge_initiator" and "bridge_transfers" cannot fail, so its
`FunctionViewError` mapping is unreachable and omitted.  Each field is
extracted and parsed in source order; the state field is truncated `as u8`;
the two `&s[2..]` byte slices panic on strings shorter than two bytes. -/
def get_bridge_transfer_details (client : MovementClient)
    (view : ViewRequest → ViewReply) (bridge_transfer_id : BridgeTransferId) :
    RustOutcome BridgeContractError (Option (BridgeTransferDetails MovementAddress)) :=
  match view ⟨client.native_address, "atomic_bridge_initiator", "bridge_transfers", [],
      ["0x" ++ hexEncode bridge_transfer_id.bytes]⟩ with
  | .error _ => .error .CallError
  | .ok values =>
    if values.length ≠ 6 then .error .InvalidResponseLength
    else
      match val_as_str_initiator (values.get? 0) with
      | .error e => .error e
      | .ok originator =>
      match val_as_str_initiator (values.get? 1) with
      | .error e => .error e
      | .ok recipient =>
      match val_as_str_initiator (values.get? 2) with
      | .error e => .error e
      | .ok amountStr =>
      match parse_u64 amountStr with
      | none => .error .SerializationError
      | some amount =>
      match val_as_str_initiator (values.get? 3) with
      | .error e => .error e
      | .ok hash_lock =>
      match val_as_str_initiator (values.get? 4) with
      | .error e => .error e
      | .ok timeStr =>
      match parse_u64 timeStr with
      | none => .error .SerializationError
      | some time_lock =>
      match val_as_u64_initiator (values.get? 5) with
      | .error e => .error e
      | .ok stateU64 =>
      match from_hex_literal originator with
      | none => .error .SerializationError
      | some originator_address =>
      match rustStrSliceFrom2 recipient with
      | none => .panic
      | some recipientTail =>
      match hexPairs recipientTail with
      | none => .error .SerializationError
      | some recipient_address_bytes =>
      match rustStrSliceFrom2 hash_lock with
      | none => .panic
      | some hashTail =>
      match hexPairs hashTail with
      | none => .error .SerializationError
      | some hash_lock_bytes =>
      if hash_lock_bytes.length = 32 then
        .ok (some {
          bridge_transfer_id := bridge_transfer_id,
          initiator_address := ⟨⟨⟨originator_address⟩⟩⟩,
          recipient_address := ⟨recipient_address_bytes⟩,
          amount := ⟨.Moveth amount⟩,
          hash_lock := ⟨hash_lock_bytes⟩,
          time_lock := ⟨time_lock⟩,
          state := stateU64 % 256 })
      else .error .SerializationError

end BridgeServiceMovement

namespace BridgeChainsMovement

/-- Modelled from the spec: counterparty-role error taxonomy of
`bridge_shared::bridge_contracts` (not under src/), restricted to the
variants the chains crate constructs. -/
inductive BridgeContractCounterpartyError where
  | LockTransferAssetsError
  | CompleteTransferError
  | AbortTransferError
deriving DecidableEq

/-- Chains-crate Movement client state relevant to payload construction
(lib.rs lines 75-86): counterparty module address and initiator module
address bytes. -/
structure MovementClient where
  counterparty_address : List Nat
  initiator_address : List Nat
deriving DecidableEq

/-- Embedding of the counterparty-role `get_bridge_transfer_details`
(lib.rs lines 426-437): the body is `todo!()`, so the call panics for
every transfer id. -/
def get_bridge_transfer_details (_client : MovementClient)
    (_bridge_transfer_id : BridgeTransferId) :
    RustOutcome BridgeContractCounterpartyError
      (Option (BridgeTransferDetails MovementAddress)) :=
  .panic

end BridgeChainsMovement

/-- Modelled from the spec: arbitrary-precision decimal of the external
`bigdecimal` crate, an integer mantissa with a scale. -/
structure BigDecimal where
  mantissa : Int
  scale : Int
deriving DecidableEq

/-- Row of table `lock_bridge_transfers` (models.rs lines 7-16). -/
structure LockBridgeTransfer where
  id : Int
  bridge_transfer_id : List Nat
  hash_lock : List Nat
  initiator : List Nat
  recipient : List Nat
  amount : BigDecimal
deriving DecidableEq

/-- Row of table `wait_and_complete_initiators` (models.rs lines 19-25). -/
structure WaitAndCompleteInitiator where
  id : Int
  timestamp : Int
  pre_image : List Nat
deriving DecidableEq

/-- Row of table `initiated_events` (models.rs lines 28-39). -/
structure InitiatedEvent where
  id : Int
  bridge_transfer_id : List Nat
  initiator_address : List Nat
  recipient_address : List Nat
  hash_lock : List Nat
  time_lock : Int
  amount : BigDecimal
  state : Int
deriving DecidableEq

/-- Row of table `locked_events` (models.rs lines 42-52). -/
structure LockedEvent where
  id : Int
  bridge_transfer_id : List Nat
  initiator : List Nat
  recipient : List Nat
  hash_lock : List Nat
  time_lock : Int
  amount : BigDecimal
deriving DecidableEq

/-- Row of table `initiator_completed_events` (models.rs lines 55-60). -/
structure InitiatorCompletedEvent where
  id : Int
  bridge_transfer_id : List Nat
deriving DecidableEq

/-- Row of table `counter_part_completed_events` (models.rs lines
63-69). -/
structure CounterPartCompletedEvent where
  id : Int
  bridge_transfer_id : List Nat
  pre_image : List Nat
deriving DecidableEq

/-- Row of table `cancelled_events` (models.rs lines 72-77). -/
structure CancelledEvent where
  id : Int
  bridge_transfer_id : List Nat
deriving DecidableEq

/-- Row of table `refunded_events` (models.rs lines 80-85). -/
structure RefundedEvent where
  id : Int
  bridge_transfer_id : List Nat
deriving DecidableEq

/-- Modelled from the spec: AWS KMS key specifications of the external
SDK, restricted to representative variants. -/
inductive KeySpec where
  | EccSecgP256K1
  | EccNistP256
  | Rsa2048
deriving DecidableEq

/-- Modelled from the spec: AWS KMS key usage types of the external SDK. -/
inductive KeyUsageType where
  | SignVerify
  | EncryptDecrypt
deriving DecidableEq

/-- Modelled from the spec: AWS KMS signing algorithm specifications of
the external SDK, restricted to representative variants. -/
inductive SigningAlgorithmSpec where
  | EcdsaSha256
  | EcdsaSha384
  | RsassaPssSha256
deriving DecidableEq

namespace Secp256k1

/-- Embedding of `AwsKmsCryptography::key_spec` for Secp256k1
(aws-kms mod.rs lines 17-19). -/
def key_spec : KeySpec := .EccSecgP256K1

/-- Embedding of `AwsKmsCryptography::key_usage_type` for Secp256k1
(aws-kms mod.rs lines 21-23). -/
def key_usage_type : KeyUsageType := .SignVerify

/-- Embedding of `AwsKmsCryptography::signing_algorithm_spec` for
Secp256k1 (aws-kms mod.rs lines 25-27). -/
def signing_algorithm_spec : SigningAlgorithmSpec := .EcdsaSha256

end Secp256k1

/-- Concrete client fixture: the 0xcafe-prefixed native address built at
client.rs lines 93-95. -/
def testClient : MovementClient :=
  ⟨202 :: 254 :: List.replicate 30 0, []⟩

/-- Submission oracle on which every chain submission fails, standing for
a revert, RPC failure or timeout. -/
def failingSubmit : SubmitOracle := fun _ => .error "transaction reverted"

/-- Concrete all-zero transfer identifier fixture. -/
def testId : BridgeTransferId := ⟨List.replicate 32 0⟩

/-- Concrete preimage fixture. -/
def testPreimage : HashLockPreImage := ⟨[1, 2, 3]⟩

/-- Concrete hash lock fixture. -/
def testHashLock : HashLock := ⟨List.replicate 32 7⟩

/-- Concrete time lock fixture. -/
def testTimeLock : TimeLock := ⟨3600⟩

/-- Concrete Moveth amount fixture. -/
def testAmount : Amount := ⟨.Moveth 100⟩

/-- Concrete external-chain initiator address fixture for the lock
operation. -/
def testInitiatorVec : BridgeAddress (List Nat) := ⟨[9, 9, 9]⟩

/-- Concrete Movement recipient fixture for the lock operation. -/
def testRecipientMove : BridgeAddress MovementAddress := ⟨⟨⟨List.replicate 32 1⟩⟩⟩

/-- C1: a chain submission failure must surface as the role-specific typed
error.  The code instead maps the failure and still returns success for
complete, abort and lock: under a submission oracle that fails on every
payload, all three return `Ok(())`.  This refutes the claim and exhibits
the defect flagged in §9 of the spec; the claim states the intended contract, so
the code is in the wrong. -/
theorem swallowed_submission_failures_still_return_ok :
    (∀ p, failingSubmit p = .error "transaction reverted") ∧
    (BridgeServiceMovement.complete_bridge_transfer testClient failingSubmit
        testId testPreimage).1 = .ok () ∧
    (BridgeServiceMovement.abort_bridge_transfer testClient failingSubmit testId).1 = .ok () ∧
    (BridgeServiceMovement.lock_bridge_transfer testClient failingSubmit testId
        testHashLock testTimeLock testInitiatorVec testRecipientMove testAmount).1 = .ok () :=
  ⟨fun _ => rfl, rfl, rfl, rfl⟩

/-- C2: for every Amount whose AssetType is not `Moveth`, the initiate
operation returns `ConversionFailed "Amount"` with an empty submission
trace, so no payload is built and nothing is submitted. -/
theorem initiate_rejects_unsupported_asset (client : MovementClient)
    (submit : SubmitOracle) (initiator : BridgeAddress MovementAddress)
    (recipient : BridgeAddress (List Nat)) (hash_lock : HashLock)
    (time_lock : TimeLock) (amount : Amount)
    (h : ∀ v, amount.asset ≠ AssetType.Moveth v) :
    BridgeServiceMovement.initiate_bridge_transfer client submit initiator recipient
        hash_lock time_lock amount =
      (.error (.ConversionFailed "Amount"), []) := by
  obtain ⟨asset⟩ := amount
  cases asset with
  | Moveth v => exact absurd rfl (h v)
  | EthAndWeth p => rfl

/-- Witness for C2 at a concrete non-Moveth amount. -/
theorem initiate_rejects_unsupported_asset_witness :
    (∀ v, (Amount.mk (.EthAndWeth (1, 2))).asset ≠ AssetType.Moveth v) ∧
    BridgeServiceMovement.initiate_bridge_transfer testClient failingSubmit
        ⟨⟨⟨[5]⟩⟩⟩ ⟨[6]⟩ testHashLock testTimeLock ⟨.EthAndWeth (1, 2)⟩ =
      (.error (.ConversionFailed "Amount"), []) :=
  And.intro (fun _ h => nomatch h)
    (initiate_rejects_unsupported_asset testClient failingSubmit ⟨⟨⟨[5]⟩⟩⟩ ⟨[6]⟩
      testHashLock testTimeLock ⟨.EthAndWeth (1, 2)⟩ (fun _ h => nomatch h))

/-- C4: the counterparty-role `get_bridge_transfer_details` is claimed to
be total, returning Some, None or a typed error for every transfer id.
The body of the code is `todo!()`, so it panics for every transfer id; the
claim states the specified contract and the code is an unimplemented
stub. -/
theorem counterparty_get_details_always_panics
    (client : BridgeChainsMovement.MovementClient) (id : BridgeTransferId) :
    BridgeChainsMovement.get_bridge_transfer_details client id = .panic :=
  rfl

/-- C5: initiate submits exactly the serializations of recipient, hash
lock, time lock and amount in that order, and lock submits exactly the
serializations of initiator, transfer id, hash lock, time lock, recipient
and amount in that order; byte-vector fields are length-prefixed byte
strings and u64 fields are eight little-endian bytes. -/
theorem role_operations_encode_arguments_in_canonical_order
    (client : MovementClient) (submit : SubmitOracle)
    (initA : BridgeAddress MovementAddress) (recipient : BridgeAddress (List Nat))
    (hash_lock : HashLock) (time_lock : TimeLock) (v : Nat)
    (id : BridgeTransferId) (initVec : BridgeAddress (List Nat))
    (recMove : BridgeAddress MovementAddress) :
    ((BridgeServiceMovement.initiate_bridge_transfer client submit initA recipient
          hash_lock time_lock ⟨.Moveth v⟩).2.map TransactionPayload.args =
      [[uleb128 recipient.val.length ++ recipient.val,
        uleb128 hash_lock.bytes.length ++ hash_lock.bytes,
        leBytes 8 (time_lock.val % 2 ^ 64),
        leBytes 8 (v % 2 ^ 64)]]) ∧
    ((BridgeServiceMovement.lock_bridge_transfer client submit id hash_lock time_lock
          initVec recMove ⟨.Moveth v⟩).2.map TransactionPayload.args =
      [[uleb128 initVec.val.length ++ initVec.val,
        uleb128 id.bytes.length ++ id.bytes,
        uleb128 hash_lock.bytes.length ++ hash_lock.bytes,
        leBytes 8 (time_lock.val % 2 ^ 64),
        uleb128 recMove.val.addr.bytes.length ++ recMove.val.addr.bytes,
        leBytes 8 (v % 2 ^ 64)]]) ∧
    (∀ n : Nat, (leBytes 8 n).length = 8) :=
  ⟨rfl, rfl, fun _ => rfl⟩

/-- C7: each persisted event row type is determined by exactly the schema
fields of its kind plus the identity key: two Locked rows are equal iff
their id, transfer id, hash lock, initiator, recipient and amount agree,
and likewise for Initiated and CounterpartyCompleted rows with their
respective field sets. -/
theorem event_rows_have_exactly_schema_fields :
    (∀ r1 r2 : LockBridgeTransfer, r1 = r2 ↔
      (r1.id = r2.id ∧ r1.bridge_transfer_id = r2.bridge_transfer_id ∧
       r1.hash_lock = r2.hash_lock ∧ r1.initiator = r2.initiator ∧
       r1.recipient = r2.recipient ∧ r1.amount = r2.amount)) ∧
    (∀ r1 r2 : InitiatedEvent, r1 = r2 ↔
      (r1.id = r2.id ∧ r1.bridge_transfer_id = r2.bridge_transfer_id ∧
       r1.initiator_address = r2.initiator_address ∧
       r1.recipient_address = r2.recipient_address ∧
       r1.hash_lock = r2.hash_lock ∧ r1.time_lock = r2.time_lock ∧
       r1.amount = r2.amount ∧ r1.state = r2.state)) ∧
    (∀ r1 r2 : CounterPartCompletedEvent, r1 = r2 ↔
      (r1.id = r2.id ∧ r1.bridge_transfer_id = r2.bridge_transfer_id ∧
       r1.pre_image = r2.pre_image)) := by
  refine ⟨fun r1 r2 => ?_, fun r1 r2 => ?_, fun r1 r2 => ?_⟩ <;>
    (cases r1; cases r2; simp)

/-- C8: the AWS KMS signer descriptor for Secp256k1 is exactly the
secp256k1 key spec, the sign-and-verify key usage and the ECDSA-SHA-256
signing algorithm. -/
theorem aws_kms_secp256k1_descriptor :
    Secp256k1.key_spec = KeySpec.EccSecgP256K1 ∧
    Secp256k1.key_usage_type = KeyUsageType.SignVerify ∧
    Secp256k1.signing_algorithm_spec = SigningAlgorithmSpec.EcdsaSha256 :=
  ⟨rfl, rfl, rfl⟩

/-- C9: initiate does not depend on its initiator argument: with all other
arguments and the submission oracle fixed, two runs with different
initiator addresses produce the same result and the same submitted
payloads. -/
theorem initiate_ignores_initiator_argument (client : MovementClient)
    (submit : SubmitOracle) (i1 i2 : BridgeAddress MovementAddress)
    (recipient : BridgeAddress (List Nat)) (hash_lock : HashLock)
    (time_lock : TimeLock) (amount : Amount) :
    BridgeServiceMovement.initiate_bridge_transfer client submit i1 recipient
        hash_lock time_lock amount =
      BridgeServiceMovement.initiate_bridge_transfer client submit i2 recipient
        hash_lock time_lock amount :=
  rfl

/-- C3: a 6-field view reply whose fields fail to parse is claimed to
yield `SerializationError`.  For the reply whose recipient field is the
one-character string "0" (all other fields well-formed up to that point),
the code instead panics: `hex::decode(&recipient[2..])` byte-slices the
string at index 2 without a length check.  The claim states the intended
contract (§4.2, §7) and the unchecked slice is a slip, so the code is in
the wrong. -/
theorem get_details_panics_on_short_recipient_field :
    BridgeServiceMovement.get_bridge_transfer_details testClient
        (fun _ => .ok [.str "0xcafe", .str "0", .str "5", .str "0xff", .str "7", .num 1])
        testId = .panic := by
  decide

/-- C6: for every view reply of six fields that all parse, the details
record maps the fields positionally: field 0 is the initiator address,
field 1 the recipient address bytes, field 2 the u64 amount, field 3 the
32-byte hash lock, field 4 the u64 time lock and field 5 the state, each
carried into the record unmodified. -/
theorem get_details_maps_view_fields_positionally
    (client : MovementClient) (id : BridgeTransferId)
    (o r a h t : String) (s : Nat) (oB rB hB : List Nat)
    (rTail hTail : List Char) (av tv : Nat)
    (ho : from_hex_literal o = some oB)
    (ha : parse_u64 a = some av)
    (hr : rustStrSliceFrom2 r = some rTail)
    (hrd : hexPairs rTail = some rB)
    (hh : rustStrSliceFrom2 h = some hTail)
    (hhd : hexPairs hTail = some hB)
    (hlen : hB.length = 32)
    (ht : parse_u64 t = some tv)
    (hs : s < 256) :
    BridgeServiceMovement.get_bridge_transfer_details client
        (fun _ => .ok [.str o, .str r, .str a, .str h, .str t, .num s]) id =
      .ok (some ⟨id, ⟨⟨⟨oB⟩⟩⟩, ⟨rB⟩, ⟨.Moveth av⟩, ⟨hB⟩, ⟨tv⟩, s⟩) := by
  unfold BridgeServiceMovement.get_bridge_transfer_details
  simp [val_as_str_initiator, val_as_u64_initiator, List.get?, ho, ha, hr, hrd, hh, hhd,
    hlen, ht, Nat.mod_eq_of_lt hs]

/-- Witness for C6 at a fully concrete parsed reply. -/
theorem get_details_maps_view_fields_positionally_witness :
    (parse_u64 "5" = some 5) ∧
    BridgeServiceMovement.get_bridge_transfer_details testClient
        (fun _ => .ok [.str "0xcafe", .str "0x0a0b", .str "5",
          .str "0x0000000000000000000000000000000000000000000000000000000000000000",
          .str "7", .num 1]) testId =
      .ok (some ⟨testId, ⟨⟨⟨List.replicate 30 0 ++ [202, 254]⟩⟩⟩, ⟨[10, 11]⟩,
        ⟨.Moveth 5⟩, ⟨List.replicate 32 0⟩, ⟨7⟩, 1⟩) :=
  And.intro (by decide)
    (get_details_maps_view_fields_positionally testClient testId
      "0xcafe" "0x0a0b" "5"
      "0x0000000000000000000000000000000000000000000000000000000000000000" "7" 1
      (List.replicate 30 0 ++ [202, 254]) [10, 11] (List.replicate 32 0)
      "0a0b".data
      "0000000000000000000000000000000000000000000000000000000000000000".data
      5 7 (by decide) (by decide) (by decide) (by decide) (by decide) (by decide)
      (by decide) (by decide) (by decide))

/-- C10: the initiator-side `get_bridge_transfer_details` never returns
`Ok(None)`: for every client, view oracle and transfer id, a successful
return always carries Some details; an unknown transfer surfaces only as
a typed error. -/
theorem initiator_get_details_never_returns_ok_none
    (client : MovementClient) (view : ViewRequest → ViewReply) (id : BridgeTransferId) :
    BridgeServiceMovement.get_bridge_transfer_details client view id ≠
      RustOutcome.ok none := by
  intro hEq
  unfold BridgeServiceMovement.get_bridge_transfer_details at hEq
  repeat' split at hEq
  all_goals simp_all

end MovementBridge
